import Mathlib

set_option maxRecDepth 8192

/-!
Verification of the command-line RPN calculator (`src/main.cpp`) against its
natural-language specification.

The program is embedded shallowly:

* `parse_int`, `is_binary_op`, `is_negative_number_token`, `parse` (split into
  the option-scanning phase `scanOpts` and the operand phase `parseOperands`),
  `check`, `calculate` and `run` are translated from the corresponding
  functions of `main.cpp`.
* C `int` values are modelled as unbounded `Int` together with the explicit
  32-bit bounds `INT_MIN`/`INT_MAX`; every value stored in a `CalcData`
  operand field has been range-checked by `parse_int` exactly as in C.
* `strtol` (base 10) is modelled by `strtol10`: skip C whitespace, an optional
  single sign, a maximal run of decimal digits; no conversion when the digit
  run is empty.  The `ERANGE` rejection of the C code is subsumed by the
  subsequent `INT_MIN`/`INT_MAX` range rejection, because any clamped value
  exceeds the `int` range as well; `parse_int_checks` performs the same
  sequence of rejections as lines 92-97 of `main.cpp`.
* The option loop of `parse` calls glibc `getopt_long` with option string
  `"+h"` (stop at the first non-option) and the single long option `help`.
  Because `h` is the only valid option, every branch of the loop body leaves
  the loop, so at most one argument element is ever examined; `scanOpts`
  reproduces that examination, including glibc's deferred `optind`
  increment: `optind` moves past a short-option element only when its last
  character is processed, so for a multi-character element the recovery code
  `argv[optind - 1]` reads the *previous* argument vector entry.
* Output is modelled as `ProgOut`: the exit code, the list of chunks written
  to standard output (help text, result line) and to standard error
  (formatted error lines).
* The checked arithmetic library `mathlib` is declared in `mathlib.h` but its
  implementation is not part of the sources; the `math_*` functions below are
  modelled from the specification, as marked in their doc comments.
-/

namespace Calculator

/-- The 32-bit `INT_MAX` bound used by `parse_int` and the checked arithmetic. -/
def INT_MAX : Int := 2147483647

/-- The 32-bit `INT_MIN` bound used by `parse_int` and the checked arithmetic. -/
def INT_MIN : Int := -2147483648

/-- The transient record of `main.cpp`: two operands, the operator character,
and the result slot. -/
structure CalcData where
  a : Int
  b : Int
  op : Char
  result : Int
deriving DecidableEq

/-- C `isspace` in the default locale: space, tab, newline, vertical tab,
form feed, carriage return. -/
def isSpaceC (c : Char) : Bool :=
  c = ' ' || c = '\t' || c = '\n' || c = '\x0b' || c = '\x0c' || c = '\r'

/-- Decimal digit test used by the `strtol` model. -/
def isDigitC (c : Char) : Bool :=
  '0' ≤ c && c ≤ '9'

/-- Value of a run of decimal digits, most significant first. -/
def digitsVal (l : List Char) : Int :=
  l.foldl (fun acc c => 10 * acc + ((c.toNat : Int) - ('0'.toNat : Int))) 0

/-- Outcome of the `strtol` model: whether any digits were converted, the
converted value (exact, unbounded), and the unconsumed remainder of the
input.  When nothing is converted the remainder is the whole input
(`end == s` in C). -/
structure StrtolOut where
  converted : Bool
  val : Int
  rest : List Char
deriving DecidableEq

/-- Digit-run conversion of `strtol` after the sign has been consumed:
`t2` is the input after whitespace and sign, `orig` the whole input. -/
def strtolSigned (sign : Int) (t2 : List Char) (orig : List Char) : StrtolOut :=
  if t2.takeWhile isDigitC = [] then ⟨false, 0, orig⟩
  else ⟨true, sign * digitsVal (t2.takeWhile isDigitC), t2.dropWhile isDigitC⟩

/-- Model of C `strtol(s, &end, 10)`: skip leading whitespace, consume an
optional single `+`/`-` sign, then a maximal digit run. -/
def strtol10 (s : List Char) : StrtolOut :=
  match s.dropWhile isSpaceC with
  | [] => ⟨false, 0, s⟩
  | c :: r =>
    if c = '-' then strtolSigned (-1) r s
    else if c = '+' then strtolSigned 1 r s
    else strtolSigned 1 (c :: r) s

/-- The rejection sequence of `parse_int` (`main.cpp` lines 92-97): no
conversion (`end == s`), trailing characters (`*end != '\0'`), value outside
the 32-bit `int` range (this also covers the `ERANGE` rejection, since a
clamped `long` value lies outside the `int` range too). -/
def parse_int_checks (o : StrtolOut) : Option Int :=
  if o.converted = false then none
  else if o.rest ≠ [] then none
  else if o.val < INT_MIN ∨ INT_MAX < o.val then none
  else some o.val

/-- `parse_int` of `main.cpp`: strict `strtol`-based integer parsing with
32-bit range rejection; `none` models the `-1` failure return. -/
def parse_int (s : String) : Option Int :=
  parse_int_checks (strtol10 s.data)

/-- `is_binary_op` of `main.cpp`. -/
def is_binary_op (op : Char) : Bool :=
  op == '+' || op == '-' || op == 'x' || op == '/' || op == '^'

/-- `is_negative_number_token` of `main.cpp`: a leading `-` followed
immediately by a decimal digit. -/
def is_negative_number_token (s : String) : Bool :=
  match s.data with
  | '-' :: c :: _ => '0' ≤ c && c ≤ '9'
  | _ => false

/-- Result of the option-scanning loop of `parse`: a help request, a usage
error with its message, or the remaining (non-option) arguments
`argv[optind..]` once the loop stops. -/
inductive ScanRes where
  | help : ScanRes
  | uerror (msg : String) : ScanRes
  | operands (rest : List String) : ScanRes
deriving DecidableEq

/-- The `getopt_long` loop of `parse` (`main.cpp` lines 124-149) with option
string `"+h"` and long option `help`.  `REQUIRE_ORDER` (the leading `+`)
stops scanning at the first non-option.  Since `h` is the only option, the
loop body always leaves the loop, so only the first argument element after
the program name is ever examined.  glibc increments `optind` past a
short-option element only when processing its last character, so for the
`?` return on a longer element, `argv[optind - 1]` is the element *before*
the offending one — the program name `prog` here. -/
def scanOpts (prog : String) (args : List String) : ScanRes :=
  match args with
  | [] => ScanRes.operands []
  | tok :: after =>
    match tok.data with
    | [] => ScanRes.operands (tok :: after)
    | c0 :: rest0 =>
      if c0 ≠ '-' then ScanRes.operands (tok :: after)
      else
        match rest0 with
        | [] => ScanRes.operands (tok :: after)
        | c1 :: rest1 =>
          if c1 = '-' then
            if rest1 = [] then ScanRes.operands after
            else
              if (rest1.takeWhile (fun c => c ≠ '=')).isPrefixOf "help".data then
                if (rest1.takeWhile (fun c => c ≠ '=')).length = rest1.length then
                  ScanRes.help
                else ScanRes.uerror ("unknown option: " ++ tok)
              else ScanRes.uerror ("unknown option: " ++ tok)
          else if c1 = 'h' then ScanRes.help
          else if rest1 = [] then
            if is_negative_number_token tok then ScanRes.operands (tok :: after)
            else ScanRes.uerror ("unknown option: " ++ tok)
          else
            if is_negative_number_token prog then
              ScanRes.operands (prog :: tok :: after)
            else ScanRes.uerror ("unknown option: " ++ prog)

/-- Result of `parse`: help requested (return 1 with `want_help`), usage
error (return 2) with the message passed to `print_error`, or a populated
`CalcData` (return 0). -/
inductive ParseRes where
  | help : ParseRes
  | uerror (msg : String) : ParseRes
  | ok (d : CalcData) : ParseRes
deriving DecidableEq

/-- The operand phase of `parse` (`main.cpp` lines 151-204): arity check on
the remaining arguments, strict integer parsing of the operands,
single-character operator check, and the unary-form `!` requirement. -/
def parseOperands (rest : List String) : ParseRes :=
  match rest with
  | [aStr, opStr] =>
    match parse_int aStr with
    | none => ParseRes.uerror ("invalid integer: " ++ aStr)
    | some a =>
      match opStr.data with
      | [c] =>
        if c = '!' then ParseRes.ok ⟨a, 0, '!', 0⟩
        else ParseRes.uerror "unary form requires \x27!\x27: N !"
      | _ => ParseRes.uerror "operation must be a single character"
  | [aStr, bStr, opStr] =>
    match parse_int aStr with
    | none => ParseRes.uerror ("invalid integer: " ++ aStr)
    | some a =>
      match parse_int bStr with
      | none => ParseRes.uerror ("invalid integer: " ++ bStr)
      | some b =>
        match opStr.data with
        | [c] => ParseRes.ok ⟨a, b, c, 0⟩
        | _ => ParseRes.uerror "operation must be a single character"
  | _ => ParseRes.uerror "invalid number of arguments"

/-- `parse` of `main.cpp`: option scanning followed by the operand phase.
`prog` is `argv[0]`, `args` is `argv[1..]`. -/
def parse (prog : String) (args : List String) : ParseRes :=
  match scanOpts prog args with
  | ScanRes.help => ParseRes.help
  | ScanRes.uerror m => ParseRes.uerror m
  | ScanRes.operands rest => parseOperands rest

/-- Result of `check`: ok (0), usage error (1), or runtime error (2),
each error with the message passed to `print_error`. -/
inductive CheckRes where
  | ok : CheckRes
  | usage (msg : String) : CheckRes
  | runtime (msg : String) : CheckRes
deriving DecidableEq

/-- `check` of `main.cpp` (lines 208-240): semantic validation of the parsed
record before any computation. -/
def check (d : CalcData) : CheckRes :=
  if d.op = '!' then
    if d.b ≠ 0 then CheckRes.usage "\x27!\x27 must be used in unary form: N !"
    else if d.a < 0 then CheckRes.runtime "factorial requires n >= 0"
    else CheckRes.ok
  else if is_binary_op d.op = false then CheckRes.usage "unknown operation"
  else if d.op = '^' ∧ d.b < 0 then CheckRes.runtime "power requires exp >= 0"
  else if d.op = '/' ∧ d.b = 0 then CheckRes.runtime "division by zero"
  else CheckRes.ok

/-- Status-and-result outcome of a checked arithmetic operation, one of
success, overflow, division-by-zero, invalid-argument. -/
inductive MathRes where
  | ok (v : Int) : MathRes
  | overflow : MathRes
  | divByZero : MathRes
  | invalidArg : MathRes
deriving DecidableEq

/-- Modelled from the spec: `mathlib` `math_add` is not under `src/`; per
spec 4.3, addition detects overflow of the 32-bit result (sign analysis of
operands vs. result is equivalent to a range check on the exact sum). -/
def math_add (a b : Int) : MathRes :=
  if INT_MIN ≤ a + b ∧ a + b ≤ INT_MAX then MathRes.ok (a + b) else MathRes.overflow

/-- Modelled from the spec: `mathlib` `math_sub` is not under `src/`; per
spec 4.3, subtraction detects overflow of the 32-bit result. -/
def math_sub (a b : Int) : MathRes :=
  if INT_MIN ≤ a - b ∧ a - b ≤ INT_MAX then MathRes.ok (a - b) else MathRes.overflow

/-- Modelled from the spec: `mathlib` `math_mul` is not under `src/`; per
spec 4.3, multiplication detects overflow by a divide-back or equivalent
bound check, i.e. the exact product must be representable. -/
def math_mul (a b : Int) : MathRes :=
  if INT_MIN ≤ a * b ∧ a * b ≤ INT_MAX then MathRes.ok (a * b) else MathRes.overflow

/-- Modelled from the spec: `mathlib` `math_div` is not under `src/`; per
spec 4.3, division detects a zero divisor and the single overflow case
`INT_MIN / -1`; C division truncates toward zero (`Int.tdiv`). -/
def math_div (a b : Int) : MathRes :=
  if b = 0 then MathRes.divByZero
  else if a = INT_MIN ∧ b = -1 then MathRes.overflow
  else MathRes.ok (Int.tdiv a b)

/-- Iteration of checked multiplications for `math_pow`. -/
def powGo (a : Int) : Nat → Int → MathRes
  | 0, acc => MathRes.ok acc
  | Nat.succ n, acc =>
    match math_mul acc a with
    | MathRes.ok v => powGo a n v
    | r => r

/-- Modelled from the spec: `mathlib` `math_pow` is not under `src/`; per
spec 4.3, iterative exponentiation by repeated checked multiplication; a
zero exponent yields one; negative exponents are a caller-level
precondition violation, not handled internally (the loop body never runs). -/
def math_pow (a b : Int) : MathRes :=
  powGo a b.toNat 1

/-- Iteration of checked multiplications for `math_fact`: multiply the
accumulator by `k`, `k + 1`, ... for the given number of steps. -/
def factGo : Nat → Int → Int → MathRes
  | 0, _, acc => MathRes.ok acc
  | Nat.succ m, k, acc =>
    match math_mul acc k with
    | MathRes.ok v => factGo m (k + 1) v
    | r => r

/-- Modelled from the spec: `mathlib` `math_fact` is not under `src/`; per
spec 4.3, iterative checked multiplication from 1 to `n`; negative input is
a caller-level precondition violation, not handled internally (the loop
body never runs). -/
def math_fact (n : Int) : MathRes :=
  factGo n.toNat 1 1

/-- Outcome of `calculate`: the updated record (return 0), or a runtime
error (return 2) together with the message printed by `print_math_error`
(`none` for the unreachable default operator branch, which prints nothing). -/
inductive CalcOutcome where
  | ok (d : CalcData) : CalcOutcome
  | rerror (msg : Option String) : CalcOutcome
deriving DecidableEq

/-- The operator dispatch of `calculate` (`main.cpp` lines 247-268): which
mathlib call the switch selects; `none` models the default branch. -/
def opResult (d : CalcData) : Option MathRes :=
  if d.op = '+' then some (math_add d.a d.b)
  else if d.op = '-' then some (math_sub d.a d.b)
  else if d.op = 'x' then some (math_mul d.a d.b)
  else if d.op = '/' then some (math_div d.a d.b)
  else if d.op = '^' then some (math_pow d.a d.b)
  else if d.op = '!' then some (math_fact d.a)
  else none

/-- `calculate` of `main.cpp` (lines 243-276): dispatch on the operator,
report the mathlib status via `print_math_error` on failure. -/
def calculate (d : CalcData) : CalcOutcome :=
  match opResult d with
  | none => CalcOutcome.rerror none
  | some (MathRes.ok v) => CalcOutcome.ok { d with result := v }
  | some MathRes.overflow => CalcOutcome.rerror (some "overflow")
  | some MathRes.divByZero => CalcOutcome.rerror (some "division by zero")
  | some MathRes.invalidArg => CalcOutcome.rerror (some "invalid argument")

/-- A line written to standard error by `print_error`. -/
def errLine (msg : String) : String :=
  "Error: " ++ msg ++ "\n"

/-- The help text written by `print_help`, with `argv[0]` substituted twice. -/
def helpText (prog : String) : String :=
  "Usage (RPN):\n  " ++ prog ++ " A B OP\n  " ++ prog ++ " N !\n" ++
  "\nOperations:\n  +  addition\n  -  subtraction\n  x  multiplication\n" ++
  "  /  division\n  ^  power\n  !  factorial\n" ++
  "\nOptions:\n  -h, --help    show this help\n"

/-- The result line written by `print_result`, selected by operator. -/
def resultLine (d : CalcData) : String :=
  if d.op = '!' then "fact(" ++ toString d.a ++ ") = " ++ toString d.result ++ "\n"
  else if d.op = '^' then
    toString d.a ++ "^" ++ toString d.b ++ " = " ++ toString d.result ++ "\n"
  else if d.op = 'x' then
    toString d.a ++ " x " ++ toString d.b ++ " = " ++ toString d.result ++ "\n"
  else
    toString d.a ++ " " ++ String.mk [d.op] ++ " " ++ toString d.b ++ " = " ++
      toString d.result ++ "\n"

/-- Observable outcome of one program invocation: exit code, chunks written
to standard output, chunks written to standard error. -/
structure ProgOut where
  exitCode : Nat
  stdout : List String
  stderr : List String
deriving DecidableEq

/-- `run` of `main.cpp` (lines 278-314): parse, help, check, calculate,
print, with the exit codes 0/1/2 and the help-printing policy of the code.
`prog` is `argv[0]`, `args` is `argv[1..]`. -/
def run (prog : String) (args : List String) : ProgOut :=
  match parse prog args with
  | ParseRes.help => ⟨0, [helpText prog], []⟩
  | ParseRes.uerror msg => ⟨1, [helpText prog], [errLine msg]⟩
  | ParseRes.ok d =>
    match check d with
    | CheckRes.usage msg => ⟨1, [helpText prog], [errLine msg]⟩
    | CheckRes.runtime msg => ⟨2, [], [errLine msg]⟩
    | CheckRes.ok =>
      match calculate d with
      | CalcOutcome.rerror none => ⟨2, [], []⟩
      | CalcOutcome.rerror (some m) => ⟨2, [], [errLine m]⟩
      | CalcOutcome.ok d2 => ⟨0, [resultLine d2], []⟩

/-- Following the claim's words (spec 4.1): the whole token is a decimal
integer under strict whole-string parsing — an optional single sign
followed by one or more decimal digits and nothing else, in particular no
leading whitespace. -/
def isWholeStringDecimalInt (s : String) : Bool :=
  match s.data with
  | [] => false
  | c :: r =>
    if c = '-' ∨ c = '+' then !r.isEmpty && r.all isDigitC
    else isDigitC c && r.all isDigitC

/-- The token shape actually accepted by the `strtol`-based `parse_int`:
optional leading C whitespace, then an optional single sign, then one or
more decimal digits, and nothing after them. -/
def strtolTokenShape (s : String) : Bool :=
  match s.data.dropWhile isSpaceC with
  | [] => false
  | c :: r =>
    if c = '-' ∨ c = '+' then !r.isEmpty && r.all isDigitC
    else isDigitC c && r.all isDigitC

/-- The integer value of a token of shape `strtolTokenShape`. -/
def strtolTokenVal (s : String) : Int :=
  match s.data.dropWhile isSpaceC with
  | [] => 0
  | c :: r =>
    if c = '-' then -(digitsVal r)
    else if c = '+' then digitsVal r
    else digitsVal (c :: r)

/-!  Helper lemmas. -/

lemma check_ok_op (d : CalcData) (h : check d = CheckRes.ok) :
    d.op = '!' ∨ is_binary_op d.op = true := by
  by_cases h1 : d.op = '!'
  · exact Or.inl h1
  · by_cases h2 : is_binary_op d.op = false
    · unfold check at h
      rw [if_neg h1, if_pos h2] at h
      exact absurd h (by simp)
    · exact Or.inr (by simpa using h2)

lemma opResult_some (d : CalcData) (h : d.op = '!' ∨ is_binary_op d.op = true) :
    ∃ m, opResult d = some m := by
  rcases h with h1 | h2
  · exact ⟨math_fact d.a, by simp [opResult, h1]⟩
  · simp only [is_binary_op, Bool.or_eq_true, beq_iff_eq] at h2
    rcases h2 with ((((h | h) | h) | h) | h)
    · exact ⟨math_add d.a d.b, by simp [opResult, h]⟩
    · exact ⟨math_sub d.a d.b, by simp [opResult, h]⟩
    · exact ⟨math_mul d.a d.b, by simp [opResult, h]⟩
    · exact ⟨math_div d.a d.b, by simp [opResult, h]⟩
    · exact ⟨math_pow d.a d.b, by simp [opResult, h]⟩

lemma calculate_of_check_ok (d : CalcData) (h : check d = CheckRes.ok) :
    (∃ d2, calculate d = CalcOutcome.ok d2) ∨
      (∃ m, calculate d = CalcOutcome.rerror (some m)) := by
  obtain ⟨m, hm⟩ := opResult_some d (check_ok_op d h)
  cases m with
  | ok v => exact Or.inl ⟨{ d with result := v }, by simp [calculate, hm]⟩
  | overflow => exact Or.inr ⟨"overflow", by simp [calculate, hm]⟩
  | divByZero => exact Or.inr ⟨"division by zero", by simp [calculate, hm]⟩
  | invalidArg => exact Or.inr ⟨"invalid argument", by simp [calculate, hm]⟩

lemma parse_int_checks_strtolSigned (sign : Int) (r orig : List Char) (v : Int) :
    parse_int_checks (strtolSigned sign r orig) = some v ↔
      (r ≠ [] ∧ r.all isDigitC = true ∧ v = sign * digitsVal r ∧
        INT_MIN ≤ v ∧ v ≤ INT_MAX) := by
  unfold strtolSigned
  by_cases hds : r.takeWhile isDigitC = []
  · rw [if_pos hds]
    constructor
    · intro h; exact absurd h (by simp [parse_int_checks])
    · rintro ⟨hne, hall, -⟩
      exfalso
      rcases r with _ | ⟨c, cs⟩
      · exact hne rfl
      · simp only [List.all_cons, Bool.and_eq_true] at hall
        rw [List.takeWhile_cons, if_pos hall.1] at hds
        exact List.noConfusion hds
  · rw [if_neg hds]
    by_cases hrest : r.dropWhile isDigitC = []
    · have htake : r.takeWhile isDigitC = r := by
        have h2 := List.takeWhile_append_dropWhile isDigitC r
        rwa [hrest, List.append_nil] at h2
      have hall : r.all isDigitC = true := by
        rw [List.all_eq_true]
        exact List.dropWhile_eq_nil_iff.mp hrest
      have hne : r ≠ [] := by
        intro h0
        rw [h0] at hds
        exact hds rfl
      rw [htake, hrest]
      simp only [parse_int_checks]
      by_cases hr : sign * digitsVal r < INT_MIN ∨ INT_MAX < sign * digitsVal r
      · simp only [hr, if_true, if_pos]
        simp only [Bool.not_eq_false, ne_eq, not_true_eq_false, if_false,
          reduceCtorEq, false_iff]  -- may need adjusting
        rintro ⟨-, -, rfl, h5, h6⟩
        omega
      · constructor
        · intro hsome
          have : some (sign * digitsVal r) = some v := by
            simpa [hr] using hsome
          have hv := Option.some.inj this
          push_neg at hr
          exact ⟨hne, hall, hv.symm, by omega, by omega⟩
        · rintro ⟨-, -, rfl, -, -⟩
          simp [hr]
    · have : parse_int_checks
          ⟨true, sign * digitsVal (r.takeWhile isDigitC), r.dropWhile isDigitC⟩ = none := by
        simp [parse_int_checks, hrest]
      rw [this]
      constructor
      · intro h; exact absurd h (by simp)
      · rintro ⟨hne, hall, -⟩
        exact absurd (List.dropWhile_eq_nil_iff.mpr (List.all_eq_true.mp hall)) hrest

/-!  Claim theorems. -/

/-- C1: for every binary invocation `A B /` whose second operand parses to
0 (and whose first operand is a valid operand token, the whole invocation
being recognized as binary form by the option scanner), the program rejects
the division in `check`, before `calculate` runs: it prints exactly the
error line `Error: division by zero` on standard error, prints nothing
(in particular no help text) on standard output, and exits with code 2. -/
theorem C1_div_by_zero_rejected (prog aStr bStr : String) (a : Int)
    (ha : parse_int aStr = some a) (hb : parse_int bStr = some 0)
    (hscan : scanOpts prog [aStr, bStr, "/"] = ScanRes.operands [aStr, bStr, "/"]) :
    run prog [aStr, bStr, "/"] = ⟨2, [], [errLine "division by zero"]⟩ := by
  have hop : ("/" : String).data = ['/'] := rfl
  have hchk : check ⟨a, 0, '/', 0⟩ = CheckRes.runtime "division by zero" := rfl
  simp only [run, parse, hscan, parseOperands, ha, hb, hop, hchk]

theorem C1_div_by_zero_rejected_witness :
    run "calc" ["5", "0", "/"] = ⟨2, [], [errLine "division by zero"]⟩ :=
  C1_div_by_zero_rejected "calc" "5" "0" 5 (by decide) (by decide) (by decide)

/-- C2 counterexample: the claim says every binary invocation `A B !` is
rejected as a usage error with exit code 1, but `5 0 !` is accepted:
`check` only flags `!` as misused when the second operand is nonzero, so
the program computes `fact(5)` and exits 0. -/
theorem C2_counterexample :
    run "calc" ["5", "0", "!"] = ⟨0, ["fact(5) = 120\n"], []⟩ ∧
      (run "calc" ["5", "0", "!"]).exitCode ≠ 1 := by
  decide

/-- C2 amended: a binary invocation `A B !` (recognized as binary form by
the option scanner, with both operands valid) is rejected as an
operator/arity mismatch — help printed, exit code 1 — whenever `B` parses
to a nonzero value. -/
theorem C2_amended_unary_mismatch (prog aStr bStr : String) (a b : Int)
    (ha : parse_int aStr = some a) (hb : parse_int bStr = some b) (hbne : b ≠ 0)
    (hscan : scanOpts prog [aStr, bStr, "!"] = ScanRes.operands [aStr, bStr, "!"]) :
    run prog [aStr, bStr, "!"] =
      ⟨1, [helpText prog], [errLine "\x27!\x27 must be used in unary form: N !"]⟩ := by
  have hop : ("!" : String).data = ['!'] := rfl
  have hchk : check ⟨a, b, '!', 0⟩ =
      CheckRes.usage "\x27!\x27 must be used in unary form: N !" := by
    simp [check, hbne]
  simp only [run, parse, hscan, parseOperands, ha, hb, hop, hchk]

theorem C2_amended_unary_mismatch_witness :
    run "calc" ["5", "2", "!"] =
      ⟨1, [helpText "calc"], [errLine "\x27!\x27 must be used in unary form: N !"]⟩ :=
  C2_amended_unary_mismatch "calc" "5" "2" 5 2 (by decide) (by decide) (by decide)
    (by decide)

/-- C3: for every invocation, the exit code is 0, 1 or 2; every exit with
code 1 (usage error) prints the help text on standard output and an error
message on standard error; every exit with code 2 (runtime error) prints an
error message on standard error and nothing — in particular no help — on
standard output. -/
theorem C3_error_taxonomy (prog : String) (args : List String) :
    ((run prog args).exitCode = 0 ∨ (run prog args).exitCode = 1 ∨
        (run prog args).exitCode = 2)
    ∧ ((run prog args).exitCode = 1 →
        (run prog args).stdout = [helpText prog] ∧ (run prog args).stderr ≠ [])
    ∧ ((run prog args).exitCode = 2 →
        (run prog args).stdout = [] ∧ (run prog args).stderr ≠ []) := by
  rcases hp : parse prog args with _ | m | d
  · simp [run, hp]
  · simp [run, hp]
  · rcases hc : check d with _ | m | m
    · rcases calculate_of_check_ok d hc with ⟨d2, h2⟩ | ⟨m2, h2⟩ <;>
        simp [run, hp, hc, h2]
    · simp [run, hp, hc]
    · simp [run, hp, hc]

theorem C3_error_taxonomy_witness :
    (run "calc" ["5", "0", "/"]).stdout = [] ∧ (run "calc" ["5", "0", "/"]).stderr ≠ [] :=
  (C3_error_taxonomy "calc" ["5", "0", "/"]).2.2 (by decide)

/-- C4 counterexample: the claim says a token is accepted as an operand only
if the whole string is a decimal integer, but the token `" 5"` (leading
space) is not a whole-string decimal integer and is nevertheless accepted —
`strtol` skips leading whitespace — so `calc " 5" 3 +` succeeds. -/
theorem C4_counterexample :
    parse_int " 5" = some 5 ∧ isWholeStringDecimalInt " 5" = false ∧
      run "calc" [" 5", "3", "+"] = ⟨0, ["5 + 3 = 8\n"], []⟩ := by
  decide

/-- C4 amended: a token is accepted by `parse_int` (with value `v`) if and
only if it consists of optional leading C whitespace, an optional single
`+` or `-` sign, and one or more decimal digits with nothing after them,
and its value `v` lies in the 32-bit signed range `[-2^31, 2^31 - 1]`. -/
theorem C4_amended_strtol_parsing (s : String) (v : Int) :
    parse_int s = some v ↔
      (strtolTokenShape s = true ∧ v = strtolTokenVal s ∧
        INT_MIN ≤ v ∧ v ≤ INT_MAX) := by
  unfold parse_int strtol10 strtolTokenShape strtolTokenVal
  rcases h : s.data.dropWhile isSpaceC with _ | ⟨c, r⟩
  · simp [parse_int_checks]
  · simp only [h]
    by_cases hm : c = '-'
    · subst hm
      simp only [eq_self_iff_true, if_true, true_or]
      rw [parse_int_checks_strtolSigned]
      simp only [neg_one_mul]
      constructor
      · rintro ⟨hne, hall, rfl, h5, h6⟩
        refine ⟨?_, rfl, h5, h6⟩
        simp [List.isEmpty_iff, hne, hall]
      · rintro ⟨hshape, rfl, h5, h6⟩
        simp only [Bool.and_eq_true, Bool.not_eq_true', List.isEmpty_eq_false] at hshape
        exact ⟨hshape.1, hshape.2, rfl, h5, h6⟩
    · by_cases hp : c = '+'
      · subst hp
        simp only [if_neg (by decide : ¬('+' : Char) = '-'),
          eq_self_iff_true, if_true, or_true]
        rw [parse_int_checks_strtolSigned]
        simp only [one_mul]
        constructor
        · rintro ⟨hne, hall, rfl, h5, h6⟩
          refine ⟨?_, rfl, h5, h6⟩
          simp [List.isEmpty_iff, hne, hall]
        · rintro ⟨hshape, rfl, h5, h6⟩
          simp only [Bool.and_eq_true, Bool.not_eq_true', List.isEmpty_eq_false] at hshape
          exact ⟨hshape.1, hshape.2, rfl, h5, h6⟩
      · have hor : ¬(c = '-' ∨ c = '+') := by
          rintro (h1 | h1)
          · exact hm h1
          · exact hp h1
        simp only [if_neg hm, if_neg hp, if_neg hor]
        rw [parse_int_checks_strtolSigned]
        simp only [one_mul]
        constructor
        · rintro ⟨-, hall, rfl, h5, h6⟩
          simp only [List.all_cons, Bool.and_eq_true] at hall
          exact ⟨by simp [hall.1, hall.2], rfl, h5, h6⟩
        · rintro ⟨hshape, rfl, h5, h6⟩
          simp only [Bool.and_eq_true] at hshape
          refine ⟨List.cons_ne_nil c r, ?_, rfl, h5, h6⟩
          simp [List.all_cons, hshape.1, hshape.2]

/-- C5: the code is meant to tolerate a negative-number token being
misinterpreted as an option (spec 4.1, `is_negative_number_token`), and
does so for a single-digit token like `-5`; but for a multi-digit token
like `-52`, glibc `getopt_long` has not yet advanced `optind` when it
reports the unknown option `5`, so the recovery code reads `argv[0]`
instead of the token, rejects the invocation as `unknown option: <argv[0]>`
and exits 1 instead of accepting `-52` as an operand. -/
theorem C5_negative_token_bug :
    run "calc" ["-5", "3", "+"] = ⟨0, ["-5 + 3 = -2\n"], []⟩ ∧
      run "calc" ["-52", "3", "+"] =
        ⟨1, [helpText "calc"], [errLine "unknown option: calc"]⟩ := by
  decide

/-- C6: whenever the option scanner leaves a non-option argument count that
is neither 2 nor 3, the program reports the usage error
`invalid number of arguments`, prints help, and exits with code 1; and the
particular invocation `calc 1 2 3` is a usage error with exit code 1 (there
the count is 3, so it is rejected slightly later, as the unknown operation
`3`). -/
theorem C6_arity (prog : String) :
    (∀ (args rest : List String), scanOpts prog args = ScanRes.operands rest →
        rest.length ≠ 2 → rest.length ≠ 3 →
        run prog args = ⟨1, [helpText prog], [errLine "invalid number of arguments"]⟩)
    ∧ run "calc" ["1", "2", "3"] = ⟨1, [helpText "calc"], [errLine "unknown operation"]⟩ := by
  constructor
  · intro args rest hscan h2 h3
    have hrest : parseOperands rest = ParseRes.uerror "invalid number of arguments" := by
      rcases rest with _ | ⟨x, _ | ⟨y, _ | ⟨z, _ | ⟨w, rs⟩⟩⟩⟩
      · rfl
      · rfl
      · exact absurd rfl h2
      · exact absurd rfl h3
      · rfl
    simp only [run, parse, hscan, hrest]
  · decide

theorem C6_arity_witness :
    run "calc" ["1", "2", "3", "4"] =
      ⟨1, [helpText "calc"], [errLine "invalid number of arguments"]⟩ :=
  (C6_arity "calc").1 ["1", "2", "3", "4"] ["1", "2", "3", "4"]
    (by decide) (by decide) (by decide)

/-- C7: for every base `a`, including 0, the power operation with exponent
0 returns 1 with success status. -/
theorem C7_pow_zero_exponent (a : Int) : math_pow a 0 = MathRes.ok 1 := rfl

/-- C8: whenever `check` accepts the parsed record (returns 0, so `run`
goes on to call `calculate`), the arithmetic preconditions hold: a `/`
operation has a nonzero second operand, a `^` operation has a non-negative
second operand, and a `!` operation has a non-negative first operand and a
zero second operand. -/
theorem C8_check_ok_preconditions (d : CalcData) (h : check d = CheckRes.ok) :
    (d.op = '/' → d.b ≠ 0) ∧ (d.op = '^' → 0 ≤ d.b) ∧
      (d.op = '!' → 0 ≤ d.a ∧ d.b = 0) := by
  by_cases h1 : d.op = '!'
  · unfold check at h
    rw [if_pos h1] at h
    by_cases hb : d.b ≠ 0
    · rw [if_pos hb] at h
      exact absurd h (by simp)
    · rw [if_neg hb] at h
      push_neg at hb
      by_cases ha : d.a < 0
      · rw [if_pos ha] at h
        exact absurd h (by simp)
      · push_neg at ha
        refine ⟨fun hc => ?_, fun hc => ?_, fun _ => ⟨ha, hb⟩⟩
        · exact absurd (h1.symm.trans hc) (by decide)
        · exact absurd (h1.symm.trans hc) (by decide)
  · unfold check at h
    rw [if_neg h1] at h
    by_cases h2 : is_binary_op d.op = false
    · rw [if_pos h2] at h
      exact absurd h (by simp)
    · rw [if_neg h2] at h
      by_cases h3 : d.op = '^' ∧ d.b < 0
      · rw [if_pos h3] at h
        exact absurd h (by simp)
      · rw [if_neg h3] at h
        by_cases h4 : d.op = '/' ∧ d.b = 0
        · rw [if_pos h4] at h
          exact absurd h (by simp)
        · refine ⟨fun hc hb0 => h4 ⟨hc, hb0⟩, fun hc => ?_, fun hc => absurd hc h1⟩
          by_contra hlt
          push_neg at hlt
          exact h3 ⟨hc, hlt⟩

theorem C8_check_ok_preconditions_witness :
    (0 : Int) ≤ (CalcData.mk 5 2 '^' 0).b :=
  (C8_check_ok_preconditions (CalcData.mk 5 2 '^' 0) (by decide)).2.1 rfl

/-- C9: option scanning stops at the first non-option argument (the option
string starts with `+`), so any argument list whose first element does not
start with `-` is passed through to operand parsing unchanged, and a help
flag after an operand — as in `calc 5 ! -h` — is not treated as a help
request: that invocation exits 1 (the leftover `!`/`-h` make it a
three-argument form whose second operand is invalid), not 0. -/
theorem C9_options_stop_at_first_operand :
    (∀ (prog tok : String) (rest : List String), tok.data.head? ≠ some '-' →
        scanOpts prog (tok :: rest) = ScanRes.operands (tok :: rest))
    ∧ run "calc" ["5", "!", "-h"] = ⟨1, [helpText "calc"], [errLine "invalid integer: !"]⟩
    ∧ (run "calc" ["5", "!", "-h"]).exitCode ≠ 0 := by
  refine ⟨?_, by decide, by decide⟩
  intro prog tok rest h
  rcases htd : tok.data with _ | ⟨c, cs⟩
  · simp [scanOpts, htd]
  · have hc : c ≠ '-' := fun he => h (by rw [htd, he]; rfl)
    simp [scanOpts, htd, hc]

theorem C9_options_stop_witness :
    scanOpts "calc" ["5", "x"] = ScanRes.operands ["5", "x"] :=
  C9_options_stop_at_first_operand.1 "calc" "5" ["x"] (by decide)

/-- C10: the program is deterministic — its observable behavior (standard
output, standard error, exit code, as collected in `ProgOut`) is a function
of the argument vector alone, so two runs on the same arguments coincide.
The embedding `run` is a total pure function of `argv` because the source
consumes no other input: no environment variables, files or clocks are
read, and the only global state (`optind`/`opterr`) is reset at the start
of `parse`. -/
theorem C10_deterministic (prog : String) (args : List String) (o₁ o₂ : ProgOut)
    (h₁ : o₁ = run prog args) (h₂ : o₂ = run prog args) : o₁ = o₂ :=
  h₁.trans h₂.symm

theorem C10_deterministic_witness :
    run "calc" ["2", "3", "+"] = run "calc" ["2", "3", "+"] :=
  C10_deterministic "calc" ["2", "3", "+"] (run "calc" ["2", "3", "+"])
    (run "calc" ["2", "3", "+"]) rfl rfl

end Calculator
